import Mathlib

/-!
Shallow embedding of `haveibeenpwned.go` (package haveibeenpwned).

The repository is a small HTTP client around four exported operations:
`BreachedAccount`, `Breaches`, `Breach`, `PasteAccount`, all funnelling
through the private `callService`.  The embedding models:

* the two JSON data models `BreachModel` and `PasteModel` with their
  struct tags (`json:"...,omitempty"`);
* JSON values as an inductive `Json`; a response body is modelled as
  either bytes that parse to some `Json` value (`Body.raw (some j)`),
  bytes that are not well-formed JSON (`Body.raw none` — `json.Unmarshal`
  validates syntax before decoding, so on malformed input it reports an
  error and sets nothing), or a read failure of `ioutil.ReadAll`
  (`Body.readFail msg`);
* `encoding/json` unmarshalling of the two structs: unknown object keys
  are ignored, absent keys leave the zero value, a JSON `null` leaves the
  target unchanged, and a field type mismatch records an error, leaves
  that field at its zero value and CONTINUES decoding the remaining
  fields — the partially populated value is produced together with the
  first recorded error, which is what `Unmarshal` does ("skips that
  field and completes the unmarshaling as best it can", returning the
  first `UnmarshalTypeError`).  Every decoder therefore returns
  `value × Option String`.  (Two aspects are simplified, and no theorem
  depends on either: duplicate object keys — Go keeps the last value,
  `List.lookup` the first, and no input here has duplicates — and which
  of SEVERAL field errors is reported first: Go keeps the first in
  document key order, the model the first in struct-tag order; they
  agree whenever at most one field is mismatched, as in every input
  used below.)
* the transport `client.Do` as a function `Request → DoResult`: either a
  response (`err == nil`) or a transport-level failure in which the
  returned `*http.Response` is nil.  The redirect corner case in which
  `client.Do` returns both a response and an error does not arise for a
  plain GET and is not modelled.
* Go control flow outcomes as `GoResult`: a normal return carrying the
  returned value, the returned error, and whether `res.Body.Close()` was
  executed on that path, or a runtime panic (`GoResult.panics`, e.g. a
  nil-pointer dereference).

Header composition (`User-Agent`, `hibp-api-key` from the environment) is
carried in `Request.headers`; the environment lookup `os.Getenv
("HIBP_API_KEY")` is modelled by the explicit `apiKeyEnv` argument.
-/

/-- JSON values, as produced by the standard library decoder.  Numbers are
modelled as integers, which covers every numeric field of the two data
models (`PwnCount`, `EmailCount`). -/
inductive Json where
  | null
  | bool (b : Bool)
  | num (n : Int)
  | str (s : String)
  | arr (elems : List Json)
  | obj (fields : List (String × Json))

/-- BreachModel, from the source struct with its `json:"...,omitempty"`
tags.  Field defaults are Go's zero values. -/
structure BreachModel where
  Name : String := ""
  Title : String := ""
  Domain : String := ""
  BreachDate : String := ""
  AddedDate : String := ""
  ModifiedDate : String := ""
  PwnCount : Int := 0
  Description : String := ""
  DataClasses : List String := []
  IsVerified : Bool := false
  IsFabricated : Bool := false
  IsSensitive : Bool := false
  IsRetired : Bool := false
  IsSpamList : Bool := false
  LogoPath : String := ""
deriving Repr, DecidableEq

/-- PasteModel, from the source struct (tag of `ID` is `"Id"`). -/
structure PasteModel where
  Source : String := ""
  ID : String := ""
  Title : String := ""
  Date : String := ""
  EmailCount : Int := 0
deriving Repr, DecidableEq

/-- First recorded decode error wins, as in the decoder's `saveError`
(`if d.savedError == nil`). -/
def firstErr (a b : Option String) : Option String :=
  match a with
  | some e => some e
  | none => b

/-- Element-wise decoding of a JSON array into a slice: a failing element
records its error but decoding continues with the remaining elements,
as `encoding/json` does; the first error is reported. -/
def decodeList {α : Type} (dec : Json → α × Option String) :
    List Json → List α × Option String
  | [] => ([], none)
  | j :: rest =>
    let (x, e1) := dec j
    let (xs, e2) := decodeList dec rest
    (x :: xs, firstErr e1 e2)

/-- Unmarshalling a string-typed struct field: absent key or JSON `null`
leaves the zero value `""`; a non-string value is a type error that
leaves the field at `""`. -/
def getStr (fields : List (String × Json)) (key : String) : String × Option String :=
  match fields.lookup key with
  | none => ("", none)
  | some (.str s) => (s, none)
  | some .null => ("", none)
  | some _ => ("", some "json: cannot unmarshal into field of type string")

/-- Unmarshalling an int-typed struct field. -/
def getInt (fields : List (String × Json)) (key : String) : Int × Option String :=
  match fields.lookup key with
  | none => (0, none)
  | some (.num n) => (n, none)
  | some .null => (0, none)
  | some _ => (0, some "json: cannot unmarshal into field of type int")

/-- Unmarshalling a bool-typed struct field. -/
def getBool (fields : List (String × Json)) (key : String) : Bool × Option String :=
  match fields.lookup key with
  | none => (false, none)
  | some (.bool b) => (b, none)
  | some .null => (false, none)
  | some _ => (false, some "json: cannot unmarshal into field of type bool")

/-- Unmarshalling one element of a `[]string` field. -/
def jsonToStr : Json → String × Option String
  | .str s => (s, none)
  | .null => ("", none)
  | _ => ("", some "json: cannot unmarshal into element of type string")

/-- Unmarshalling a `[]string`-typed struct field: absent key or `null`
leaves the nil slice (modelled `[]`). -/
def getStrList (fields : List (String × Json)) (key : String) :
    List String × Option String :=
  match fields.lookup key with
  | none => ([], none)
  | some .null => ([], none)
  | some (.arr es) => decodeList jsonToStr es
  | some _ => ([], some "json: cannot unmarshal into field of type slice")

/-- Unmarshalling one `BreachModel` value from a JSON value, per the
struct tags of the source (lines 18–34).  `null` leaves the zero value;
on a field type mismatch the field stays zero, the remaining fields are
still decoded, and the first error is reported alongside the partially
populated record. -/
def decodeBreach (j : Json) : BreachModel × Option String :=
  match j with
  | .null => ({}, none)
  | .obj o =>
    let (name, e1) := getStr o "Name"
    let (title, e2) := getStr o "Title"
    let (domain, e3) := getStr o "Domain"
    let (breachDate, e4) := getStr o "BreachDate"
    let (addedDate, e5) := getStr o "AddedDate"
    let (modifiedDate, e6) := getStr o "ModifiedDate"
    let (pwnCount, e7) := getInt o "PwnCount"
    let (description, e8) := getStr o "Description"
    let (dataClasses, e9) := getStrList o "DataClasses"
    let (isVerified, e10) := getBool o "IsVerified"
    let (isFabricated, e11) := getBool o "IsFabricated"
    let (isSensitive, e12) := getBool o "IsSensitive"
    let (isRetired, e13) := getBool o "IsRetired"
    let (isSpamList, e14) := getBool o "IsSpamList"
    let (logoPath, e15) := getStr o "LogoPath"
    ({ Name := name, Title := title, Domain := domain, BreachDate := breachDate,
       AddedDate := addedDate, ModifiedDate := modifiedDate, PwnCount := pwnCount,
       Description := description, DataClasses := dataClasses, IsVerified := isVerified,
       IsFabricated := isFabricated, IsSensitive := isSensitive, IsRetired := isRetired,
       IsSpamList := isSpamList, LogoPath := logoPath },
     firstErr e1 (firstErr e2 (firstErr e3 (firstErr e4 (firstErr e5 (firstErr e6
       (firstErr e7 (firstErr e8 (firstErr e9 (firstErr e10 (firstErr e11
       (firstErr e12 (firstErr e13 (firstErr e14 e15))))))))))))))
  | _ => ({}, some "json: cannot unmarshal into Go value of type BreachModel")

/-- Unmarshalling `[]BreachModel`: the document must be an array (or
`null`, which leaves the initial `make([]BreachModel, 0)` untouched). -/
def decodeBreaches : Json → List BreachModel × Option String
  | .null => ([], none)
  | .arr es => decodeList decodeBreach es
  | _ => ([], some "json: cannot unmarshal into Go value of type []BreachModel")

/-- Unmarshalling one `PasteModel` value, with the same partial-population
semantics as `decodeBreach`. -/
def decodePaste (j : Json) : PasteModel × Option String :=
  match j with
  | .null => ({}, none)
  | .obj o =>
    let (source, e1) := getStr o "Source"
    let (id, e2) := getStr o "Id"
    let (title, e3) := getStr o "Title"
    let (date, e4) := getStr o "Date"
    let (emailCount, e5) := getInt o "EmailCount"
    ({ Source := source, ID := id, Title := title, Date := date, EmailCount := emailCount },
     firstErr e1 (firstErr e2 (firstErr e3 (firstErr e4 e5))))
  | _ => ({}, some "json: cannot unmarshal into Go value of type PasteModel")

/-- Unmarshalling `[]PasteModel`. -/
def decodePastes : Json → List PasteModel × Option String
  | .null => ([], none)
  | .arr es => decodeList decodePaste es
  | _ => ([], some "json: cannot unmarshal into Go value of type []PasteModel")

/-- Error text produced by `json.Unmarshal` on input that is not
well-formed JSON (`checkValid` rejects it before anything is decoded). -/
def syntaxErrMsg : String := "invalid character in JSON document"

/-- Response body as handed to the operations: raw bytes that either
parse to a JSON value or are malformed, or a failure of
`ioutil.ReadAll`. -/
inductive Body where
  | raw (content : Option Json)
  | readFail (msg : String)

/-- The part of `*http.Response` the client reads. -/
structure HttpResponse where
  statusCode : Nat
  body : Body

/-- Outcome of `client.Do(req)`: a response with `err == nil`, or a
transport-level failure (network, DNS, timeout), in which case the
returned response pointer is nil. -/
inductive DoResult where
  | ok (res : HttpResponse)
  | fail (msg : String)

/-- Outcome of the source's `callService` as observed by its callers:
a runtime panic, an error return (nil response), or a response. -/
inductive CallResult where
  | panics
  | err (msg : String)
  | ok (res : HttpResponse)

/-- Error message of the 400 branch of `callService`. -/
def invalidFormatMsg : String := "the account does not comply with an acceptable format"

/-- Error message of the 429 branch of `callService`. -/
def rateLimitedMsg : String := "too many requests — the rate limit has been exceeded"

/-- Error message of the 401 branch of `callService`. -/
def unauthorizedMsg : String := "valid header `hibp-api-key` required"

/-- Status classification of `callService` (lines 174–188).  The source
switches on `res.StatusCode` BEFORE checking the error of `client.Do`;
on a transport failure `res` is nil and the switch dereferences a nil
pointer, so that path is a panic, not an error return.  The `if err !=
nil` check on line 185 is only reached with a non-nil response, for
which `err` is nil. -/
def callServiceClassify (d : DoResult) : CallResult :=
  match d with
  | .fail _ => .panics
  | .ok res =>
    if res.statusCode = 400 then .err invalidFormatMsg
    else if res.statusCode = 429 then .err rateLimitedMsg
    else if res.statusCode = 401 then .err unauthorizedMsg
    else .ok res

/-- API URL of haveibeenpwned.com (source constant `API`). -/
def API : String := "https://haveibeenpwned.com/api/v3/"

/-- Query parameters built by `callService` (lines 155–165), in source
order.  `url.Values.Encode` serialises exactly these key/value pairs
(sorted by key and percent-escaped); "the query string contains
`k=<v>`" is modelled as membership of the pair `(k, v)` here, and "the
parameter is absent" as the absence of the key. -/
def callServiceParams (domainFilter : String) (truncate unverified : Bool) : List (String × String) :=
  (if domainFilter ≠ "" then [("domain", domainFilter)] else []) ++
  (if truncate = false then [("truncateResponse", "false")] else []) ++
  (if unverified then [("includeUnverified", "true")] else [])

/-- The outgoing GET request: URL path, query parameters, headers. -/
structure Request where
  urlPath : String
  params : List (String × String)
  headers : List (String × String)

/-- Request composition of `callService` (lines 149–173): path
`/api/v3/<service>/<account>`, the query parameters above, and the two
headers, with the API key read from the environment (`apiKeyEnv`). -/
def callServiceRequest (apiKeyEnv service account domainFilter : String)
    (truncate unverified : Bool) : Request :=
  { urlPath := "/api/v3/" ++ service ++ "/" ++ account
  , params := callServiceParams domainFilter truncate unverified
  , headers := [("User-Agent", "Go/1.15"), ("hibp-api-key", apiKeyEnv)] }

/-- Request issued by `BreachedAccount` (line 48): all four arguments are
forwarded to `callService`. -/
def breachedAccountRequest (apiKeyEnv account domainFilter : String)
    (truncate unverified : Bool) : Request :=
  callServiceRequest apiKeyEnv "breachedaccount" account domainFilter truncate unverified

/-- Request issued by `Breaches` (line 73): the source calls
`callService("breaches", "", "", false, false)`, passing the literal
empty string where its own `domainFilter` argument could go — the
argument is ignored. -/
def breachesRequest (apiKeyEnv domainFilter : String) : Request :=
  callServiceRequest apiKeyEnv "breaches" "" "" false false

/-- Request issued by `Breach` (line 100). -/
def breachRequest (apiKeyEnv name : String) : Request :=
  callServiceRequest apiKeyEnv "breach" name "" false false

/-- Request issued by `PasteAccount` (line 123). -/
def pasteAccountRequest (apiKeyEnv email : String) : Request :=
  callServiceRequest apiKeyEnv "pasteaccount" email "" false false

/-- Outcome of one exported operation: a runtime panic, or a return of
`(val, err)` together with whether `res.Body.Close()` ran on that exit
path (`bodyClosed`; `false` also on the paths on which no response
exists). -/
inductive GoResult (α : Type) where
  | panics
  | ret (val : α) (err : Option String) (bodyClosed : Bool)

/-- BreachedAccount (lines 46–68).  A nil slice result is `none`, a
non-nil (possibly empty) slice is `some`.  On a decode error the source
returns `nil, err` (line 64), discarding whatever was partially decoded
into the local slice.  The `defer res.Body.Close()` on line 60 is
registered only after `ioutil.ReadAll` has succeeded, so `bodyClosed`
is `true` exactly on the two paths that reach past line 60.  The
`transport` argument stands for `client.Do` on the issued request. -/
def BreachedAccount (apiKeyEnv account domainFilter : String) (truncate unverified : Bool)
    (transport : Request → DoResult) : GoResult (Option (List BreachModel)) :=
  match callServiceClassify (transport (breachedAccountRequest apiKeyEnv account domainFilter truncate unverified)) with
  | .panics => .panics
  | .err e => .ret none (some e) false
  | .ok res =>
    if res.statusCode = 404 then .ret none none false
    else
      match res.body with
      | .readFail msg => .ret none (some msg) false
      | .raw content =>
        match content with
        | none => .ret none (some syntaxErrMsg) true
        | some j =>
          match decodeBreaches j with
          | (_, some e) => .ret none (some e) true
          | (bs, none) => .ret (some bs) none true

/-- Breaches (lines 71–94): same response handling as `BreachedAccount`;
the request ignores `domainFilter` (see `breachesRequest`). -/
def Breaches (apiKeyEnv domainFilter : String)
    (transport : Request → DoResult) : GoResult (Option (List BreachModel)) :=
  match callServiceClassify (transport (breachesRequest apiKeyEnv domainFilter)) with
  | .panics => .panics
  | .err e => .ret none (some e) false
  | .ok res =>
    if res.statusCode = 404 then .ret none none false
    else
      match res.body with
      | .readFail msg => .ret none (some msg) false
      | .raw content =>
        match content with
        | none => .ret none (some syntaxErrMsg) true
        | some j =>
          match decodeBreaches j with
          | (_, some e) => .ret none (some e) true
          | (bs, none) => .ret (some bs) none true

/-- Breach (lines 97–119).  The target of `json.Unmarshal` is `&breach`
where `breach : *BreachModel`, i.e. a pointer to a pointer: a top-level
JSON `null` sets the pointer itself to nil and the following `*breach`
dereference panics; that arm is modelled accordingly.  On a malformed
document nothing is decoded and the zero record is returned with the
error.  On a well-formed document BOTH returns on lines 115 and 118 are
`*breach, err`-shaped: the decoded record — partially populated when a
field had a type error — is returned together with whatever error
`Unmarshal` reported. -/
def Breach (apiKeyEnv name : String)
    (transport : Request → DoResult) : GoResult BreachModel :=
  match callServiceClassify (transport (breachRequest apiKeyEnv name)) with
  | .panics => .panics
  | .err e => .ret {} (some e) false
  | .ok res =>
    if res.statusCode = 404 then .ret {} none false
    else
      match res.body with
      | .readFail msg => .ret {} (some msg) false
      | .raw content =>
        match content with
        | none => .ret {} (some syntaxErrMsg) true
        | some .null => .panics
        | some j =>
          match decodeBreach j with
          | (b, err) => .ret b err true

/-- PasteAccount (lines 122–144): same shape as `BreachedAccount` over
`[]PasteModel`. -/
def PasteAccount (apiKeyEnv email : String)
    (transport : Request → DoResult) : GoResult (Option (List PasteModel)) :=
  match callServiceClassify (transport (pasteAccountRequest apiKeyEnv email)) with
  | .panics => .panics
  | .err e => .ret none (some e) false
  | .ok res =>
    if res.statusCode = 404 then .ret none none false
    else
      match res.body with
      | .readFail msg => .ret none (some msg) false
      | .raw content =>
        match content with
        | none => .ret none (some syntaxErrMsg) true
        | some j =>
          match decodePastes j with
          | (_, some e) => .ret none (some e) true
          | (ps, none) => .ret (some ps) none true

/-- One field of `json.Marshal` output under `omitempty`: emitted only
when the field is not at its empty value. -/
def optField (key : String) (omitted : Bool) (v : Json) : List (String × Json) :=
  if omitted then [] else [(key, v)]

/-- The object fields `json.Marshal` emits for a `BreachModel`, per the
struct tags (PascalCase names, `omitempty` on every field). -/
def encodeBreachFields (b : BreachModel) : List (String × Json) :=
  optField "Name" (b.Name == "") (.str b.Name) ++
  optField "Title" (b.Title == "") (.str b.Title) ++
  optField "Domain" (b.Domain == "") (.str b.Domain) ++
  optField "BreachDate" (b.BreachDate == "") (.str b.BreachDate) ++
  optField "AddedDate" (b.AddedDate == "") (.str b.AddedDate) ++
  optField "ModifiedDate" (b.ModifiedDate == "") (.str b.ModifiedDate) ++
  optField "PwnCount" (b.PwnCount == 0) (.num b.PwnCount) ++
  optField "Description" (b.Description == "") (.str b.Description) ++
  optField "DataClasses" b.DataClasses.isEmpty (.arr (b.DataClasses.map .str)) ++
  optField "IsVerified" (b.IsVerified == false) (.bool b.IsVerified) ++
  optField "IsFabricated" (b.IsFabricated == false) (.bool b.IsFabricated) ++
  optField "IsSensitive" (b.IsSensitive == false) (.bool b.IsSensitive) ++
  optField "IsRetired" (b.IsRetired == false) (.bool b.IsRetired) ++
  optField "IsSpamList" (b.IsSpamList == false) (.bool b.IsSpamList) ++
  optField "LogoPath" (b.LogoPath == "") (.str b.LogoPath)

/-- A well-formed JSON breach object: the wire form of a `BreachModel`. -/
def encodeBreach (b : BreachModel) : Json :=
  .obj (encodeBreachFields b)

/-- The returned value carries no data whenever an error is returned
alongside it ("never both an error and a non-empty result"). -/
def noDataOnError {α : Type} (empty : α → Prop) : GoResult α → Prop
  | .panics => True
  | .ret v e _ => e = none ∨ empty v

/-! ## Helper lemmas -/

theorem lookup_optField_ne {k key : String} (z : Bool) (v : Json) (l : List (String × Json))
    (h : (k == key) = false) :
    List.lookup k (optField key z v ++ l) = List.lookup k l := by
  cases z <;> simp [optField, List.lookup, h]

theorem lookup_optField_eq (k : String) (z : Bool) (v : Json) (l : List (String × Json)) :
    List.lookup k (optField k z v ++ l) = if z then List.lookup k l else some v := by
  cases z <;> simp [optField, List.lookup]

theorem lookup_optField_ne_nil {k key : String} (z : Bool) (v : Json)
    (h : (k == key) = false) :
    List.lookup k (optField key z v) = none := by
  cases z <;> simp [optField, List.lookup, h]

theorem lookup_optField_eq_nil (k : String) (z : Bool) (v : Json) :
    List.lookup k (optField k z v) = if z then none else some v := by
  cases z <;> simp [optField, List.lookup]

theorem getStr_enc_Name (b : BreachModel) : getStr (encodeBreachFields b) "Name" = (b.Name, none) := by
  by_cases h : b.Name = "" <;>
    simp [getStr, encodeBreachFields, lookup_optField_ne, lookup_optField_eq,
          lookup_optField_ne_nil, lookup_optField_eq_nil, h]

theorem getStr_enc_Title (b : BreachModel) : getStr (encodeBreachFields b) "Title" = (b.Title, none) := by
  by_cases h : b.Title = "" <;>
    simp [getStr, encodeBreachFields, lookup_optField_ne, lookup_optField_eq,
          lookup_optField_ne_nil, lookup_optField_eq_nil, h]

theorem getStr_enc_Domain (b : BreachModel) : getStr (encodeBreachFields b) "Domain" = (b.Domain, none) := by
  by_cases h : b.Domain = "" <;>
    simp [getStr, encodeBreachFields, lookup_optField_ne, lookup_optField_eq,
          lookup_optField_ne_nil, lookup_optField_eq_nil, h]

theorem getStr_enc_BreachDate (b : BreachModel) : getStr (encodeBreachFields b) "BreachDate" = (b.BreachDate, none) := by
  by_cases h : b.BreachDate = "" <;>
    simp [getStr, encodeBreachFields, lookup_optField_ne, lookup_optField_eq,
          lookup_optField_ne_nil, lookup_optField_eq_nil, h]

theorem getStr_enc_AddedDate (b : BreachModel) : getStr (encodeBreachFields b) "AddedDate" = (b.AddedDate, none) := by
  by_cases h : b.AddedDate = "" <;>
    simp [getStr, encodeBreachFields, lookup_optField_ne, lookup_optField_eq,
          lookup_optField_ne_nil, lookup_optField_eq_nil, h]

theorem getStr_enc_ModifiedDate (b : BreachModel) : getStr (encodeBreachFields b) "ModifiedDate" = (b.ModifiedDate, none) := by
  by_cases h : b.ModifiedDate = "" <;>
    simp [getStr, encodeBreachFields, lookup_optField_ne, lookup_optField_eq,
          lookup_optField_ne_nil, lookup_optField_eq_nil, h]

theorem getInt_enc_PwnCount (b : BreachModel) : getInt (encodeBreachFields b) "PwnCount" = (b.PwnCount, none) := by
  by_cases h : b.PwnCount = 0 <;>
    simp [getInt, encodeBreachFields, lookup_optField_ne, lookup_optField_eq,
          lookup_optField_ne_nil, lookup_optField_eq_nil, h]

theorem getStr_enc_Description (b : BreachModel) : getStr (encodeBreachFields b) "Description" = (b.Description, none) := by
  by_cases h : b.Description = "" <;>
    simp [getStr, encodeBreachFields, lookup_optField_ne, lookup_optField_eq,
          lookup_optField_ne_nil, lookup_optField_eq_nil, h]

theorem decodeList_jsonToStr (xs : List String) : decodeList jsonToStr (xs.map Json.str) = (xs, none) := by
  induction xs with
  | nil => rfl
  | cons x rest ih => simp [decodeList, jsonToStr, ih, firstErr]

theorem getStrList_enc_DataClasses (b : BreachModel) :
    getStrList (encodeBreachFields b) "DataClasses" = (b.DataClasses, none) := by
  by_cases h : b.DataClasses = [] <;>
    simp [getStrList, encodeBreachFields, lookup_optField_ne, lookup_optField_eq,
          lookup_optField_ne_nil, lookup_optField_eq_nil, h, decodeList_jsonToStr]

theorem getBool_enc_IsVerified (b : BreachModel) : getBool (encodeBreachFields b) "IsVerified" = (b.IsVerified, none) := by
  cases hv : b.IsVerified <;>
    simp [getBool, encodeBreachFields, lookup_optField_ne, lookup_optField_eq,
          lookup_optField_ne_nil, lookup_optField_eq_nil, hv]

theorem getBool_enc_IsFabricated (b : BreachModel) : getBool (encodeBreachFields b) "IsFabricated" = (b.IsFabricated, none) := by
  cases hv : b.IsFabricated <;>
    simp [getBool, encodeBreachFields, lookup_optField_ne, lookup_optField_eq,
          lookup_optField_ne_nil, lookup_optField_eq_nil, hv]

theorem getBool_enc_IsSensitive (b : BreachModel) : getBool (encodeBreachFields b) "IsSensitive" = (b.IsSensitive, none) := by
  cases hv : b.IsSensitive <;>
    simp [getBool, encodeBreachFields, lookup_optField_ne, lookup_optField_eq,
          lookup_optField_ne_nil, lookup_optField_eq_nil, hv]

theorem getBool_enc_IsRetired (b : BreachModel) : getBool (encodeBreachFields b) "IsRetired" = (b.IsRetired, none) := by
  cases hv : b.IsRetired <;>
    simp [getBool, encodeBreachFields, lookup_optField_ne, lookup_optField_eq,
          lookup_optField_ne_nil, lookup_optField_eq_nil, hv]

theorem getBool_enc_IsSpamList (b : BreachModel) : getBool (encodeBreachFields b) "IsSpamList" = (b.IsSpamList, none) := by
  cases hv : b.IsSpamList <;>
    simp [getBool, encodeBreachFields, lookup_optField_ne, lookup_optField_eq,
          lookup_optField_ne_nil, lookup_optField_eq_nil, hv]

theorem getStr_enc_LogoPath (b : BreachModel) : getStr (encodeBreachFields b) "LogoPath" = (b.LogoPath, none) := by
  by_cases h : b.LogoPath = "" <;>
    simp [getStr, encodeBreachFields, lookup_optField_ne, lookup_optField_eq,
          lookup_optField_ne_nil, lookup_optField_eq_nil, h]

theorem decodeBreach_encodeBreach (b : BreachModel) : decodeBreach (encodeBreach b) = (b, none) := by
  simp [decodeBreach, encodeBreach, firstErr,
        getStr_enc_Name, getStr_enc_Title, getStr_enc_Domain, getStr_enc_BreachDate,
        getStr_enc_AddedDate, getStr_enc_ModifiedDate, getInt_enc_PwnCount,
        getStr_enc_Description, getStrList_enc_DataClasses, getBool_enc_IsVerified,
        getBool_enc_IsFabricated, getBool_enc_IsSensitive, getBool_enc_IsRetired,
        getBool_enc_IsSpamList, getStr_enc_LogoPath]

theorem decodeBreaches_encode_pair (b1 b2 : BreachModel) :
    decodeBreaches (.arr [encodeBreach b1, encodeBreach b2]) = ([b1, b2], none) := by
  simp [decodeBreaches, decodeList, decodeBreach_encodeBreach, firstErr]

theorem noData_breachedAccount (env a f : String) (t u : Bool) (d : DoResult) :
    noDataOnError (· = none) (BreachedAccount env a f t u (fun _ => d)) := by
  cases d with
  | fail msg => simp [BreachedAccount, callServiceClassify, noDataOnError]
  | ok res =>
    obtain ⟨sc, body⟩ := res
    by_cases h400 : sc = 400
    · simp [BreachedAccount, callServiceClassify, h400, noDataOnError]
    by_cases h429 : sc = 429
    · simp [BreachedAccount, callServiceClassify, h400, h429, noDataOnError]
    by_cases h401 : sc = 401
    · simp [BreachedAccount, callServiceClassify, h400, h429, h401, noDataOnError]
    by_cases h404 : sc = 404
    · simp [BreachedAccount, callServiceClassify, h400, h429, h401, h404, noDataOnError]
    cases body with
    | readFail msg =>
      simp [BreachedAccount, callServiceClassify, h400, h429, h401, h404, noDataOnError]
    | raw content =>
      cases content with
      | none => simp [BreachedAccount, callServiceClassify, h400, h429, h401, h404, noDataOnError]
      | some j =>
        rcases hdec : decodeBreaches j with ⟨bs, err⟩
        cases err <;>
          simp [BreachedAccount, callServiceClassify, h400, h429, h401, h404, hdec, noDataOnError]

theorem noData_breaches (env f : String) (d : DoResult) :
    noDataOnError (· = none) (Breaches env f (fun _ => d)) := by
  cases d with
  | fail msg => simp [Breaches, callServiceClassify, noDataOnError]
  | ok res =>
    obtain ⟨sc, body⟩ := res
    by_cases h400 : sc = 400
    · simp [Breaches, callServiceClassify, h400, noDataOnError]
    by_cases h429 : sc = 429
    · simp [Breaches, callServiceClassify, h400, h429, noDataOnError]
    by_cases h401 : sc = 401
    · simp [Breaches, callServiceClassify, h400, h429, h401, noDataOnError]
    by_cases h404 : sc = 404
    · simp [Breaches, callServiceClassify, h400, h429, h401, h404, noDataOnError]
    cases body with
    | readFail msg =>
      simp [Breaches, callServiceClassify, h400, h429, h401, h404, noDataOnError]
    | raw content =>
      cases content with
      | none => simp [Breaches, callServiceClassify, h400, h429, h401, h404, noDataOnError]
      | some j =>
        rcases hdec : decodeBreaches j with ⟨bs, err⟩
        cases err <;>
          simp [Breaches, callServiceClassify, h400, h429, h401, h404, hdec, noDataOnError]

theorem noData_pasteAccount (env e : String) (d : DoResult) :
    noDataOnError (· = none) (PasteAccount env e (fun _ => d)) := by
  cases d with
  | fail msg => simp [PasteAccount, callServiceClassify, noDataOnError]
  | ok res =>
    obtain ⟨sc, body⟩ := res
    by_cases h400 : sc = 400
    · simp [PasteAccount, callServiceClassify, h400, noDataOnError]
    by_cases h429 : sc = 429
    · simp [PasteAccount, callServiceClassify, h400, h429, noDataOnError]
    by_cases h401 : sc = 401
    · simp [PasteAccount, callServiceClassify, h400, h429, h401, noDataOnError]
    by_cases h404 : sc = 404
    · simp [PasteAccount, callServiceClassify, h400, h429, h401, h404, noDataOnError]
    cases body with
    | readFail msg =>
      simp [PasteAccount, callServiceClassify, h400, h429, h401, h404, noDataOnError]
    | raw content =>
      cases content with
      | none => simp [PasteAccount, callServiceClassify, h400, h429, h401, h404, noDataOnError]
      | some j =>
        rcases hdec : decodePastes j with ⟨ps, err⟩
        cases err <;>
          simp [PasteAccount, callServiceClassify, h400, h429, h401, h404, hdec, noDataOnError]

/-! ## Claim theorems -/

/-- C1: the claim says the request issued by `Breaches` (listAllBreaches)
carries `domain=<filter>` for every non-empty `domainFilter`.  The source
(line 73) passes the literal `""` to `callService` instead of its own
`domainFilter` argument, so the `domain` query parameter is absent for
EVERY filter value, non-empty ones included: evaluated here at the
concrete failing input `Breaches("adobe.com")` and, in the second
conjunct, for every filter value. -/
theorem breaches_domain_filter_ignored :
    (breachesRequest "key" "adobe.com").params.lookup "domain" = none ∧
    ∀ apiKeyEnv domainFilter : String,
      (breachesRequest apiKeyEnv domainFilter).params.lookup "domain" = none :=
  ⟨rfl, fun _ _ => rfl⟩

/-- C2: the claim says a transport-level failure (nil response from
`client.Do`) yields a `TransportError` return with no crash.  The source
(lines 174–185) switches on `res.StatusCode` BEFORE checking the error,
dereferencing the nil response: every one of the four operations panics
instead of returning an error. -/
theorem transport_failure_panics (env a f n e msg : String) (t u : Bool) :
    BreachedAccount env a f t u (fun _ => .fail msg) = .panics ∧
    Breaches env f (fun _ => .fail msg) = .panics ∧
    Breach env n (fun _ => .fail msg) = .panics ∧
    PasteAccount env e (fun _ => .fail msg) = .panics :=
  ⟨rfl, rfl, rfl, rfl⟩

/-- C3 (amended): an HTTP 404 yields the nil slice (a length-zero
sequence, modelled `none`) for the three list operations and the
zero-value `BreachModel` for `Breach`, in every case with a nil error;
and the THREE LIST operations never return an error together with data
(`noDataOnError`).  The original claim asserted the never-both part for
all four operations; `Breach` (getBreachByName) violates it — see
`breach_error_with_partial_data` — because on a well-formed 200 body
with a field type error `encoding/json` partially populates the record
and line 115 returns `*breach` together with the error. -/
theorem http404_empty_result_no_error (env a f n e : String) (t u : Bool)
    (body : Body) (d : DoResult) :
    BreachedAccount env a f t u (fun _ => .ok ⟨404, body⟩) = .ret none none false ∧
    Breaches env f (fun _ => .ok ⟨404, body⟩) = .ret none none false ∧
    Breach env n (fun _ => .ok ⟨404, body⟩) = .ret {} none false ∧
    PasteAccount env e (fun _ => .ok ⟨404, body⟩) = .ret none none false ∧
    noDataOnError (· = none) (BreachedAccount env a f t u (fun _ => d)) ∧
    noDataOnError (· = none) (Breaches env f (fun _ => d)) ∧
    noDataOnError (· = none) (PasteAccount env e (fun _ => d)) :=
  ⟨rfl, rfl, rfl, rfl, noData_breachedAccount env a f t u d, noData_breaches env f d,
   noData_pasteAccount env e d⟩

/-- C3 counterexample: the claim's "never both an error and a non-empty
result" fails for `Breach`.  On the well-formed 200 body
{"Name":"x","PwnCount":"bad"} the decoder sets `Name`, records the type
error on `PwnCount` and completes the unmarshaling as best it can;
`Breach` then returns the partially populated record TOGETHER with the
error, so `noDataOnError` is false at this concrete input. -/
theorem breach_error_with_partial_data :
    Breach "key" "Adobe"
        (fun _ => .ok ⟨200, .raw (some (.obj [("Name", Json.str "x"), ("PwnCount", Json.str "bad")]))⟩)
      = .ret { Name := "x" } (some "json: cannot unmarshal into field of type int") true ∧
    ¬ noDataOnError (· = ({} : BreachModel))
        (Breach "key" "Adobe"
          (fun _ => .ok ⟨200, .raw (some (.obj [("Name", Json.str "x"), ("PwnCount", Json.str "bad")]))⟩)) := by
  have heq : Breach "key" "Adobe"
      (fun _ => .ok ⟨200, .raw (some (.obj [("Name", Json.str "x"), ("PwnCount", Json.str "bad")]))⟩)
      = GoResult.ret { Name := "x" } (some "json: cannot unmarshal into field of type int") true := rfl
  refine ⟨heq, ?_⟩
  rw [heq]
  simp [noDataOnError]
  decide

/-- C4: for every operation and every response body, HTTP 400 returns the
400-branch error of `callService` (`InvalidFormat`), 401 the 401-branch
error (`Unauthorized`), 429 the 429-branch error (`RateLimited`), each
with no result data (nil slice / zero record). -/
theorem http_error_statuses_classified (env a f n e : String) (t u : Bool) (body : Body) :
    BreachedAccount env a f t u (fun _ => .ok ⟨400, body⟩) = .ret none (some invalidFormatMsg) false ∧
    Breaches env f (fun _ => .ok ⟨400, body⟩) = .ret none (some invalidFormatMsg) false ∧
    Breach env n (fun _ => .ok ⟨400, body⟩) = .ret {} (some invalidFormatMsg) false ∧
    PasteAccount env e (fun _ => .ok ⟨400, body⟩) = .ret none (some invalidFormatMsg) false ∧
    BreachedAccount env a f t u (fun _ => .ok ⟨401, body⟩) = .ret none (some unauthorizedMsg) false ∧
    Breaches env f (fun _ => .ok ⟨401, body⟩) = .ret none (some unauthorizedMsg) false ∧
    Breach env n (fun _ => .ok ⟨401, body⟩) = .ret {} (some unauthorizedMsg) false ∧
    PasteAccount env e (fun _ => .ok ⟨401, body⟩) = .ret none (some unauthorizedMsg) false ∧
    BreachedAccount env a f t u (fun _ => .ok ⟨429, body⟩) = .ret none (some rateLimitedMsg) false ∧
    Breaches env f (fun _ => .ok ⟨429, body⟩) = .ret none (some rateLimitedMsg) false ∧
    Breach env n (fun _ => .ok ⟨429, body⟩) = .ret {} (some rateLimitedMsg) false ∧
    PasteAccount env e (fun _ => .ok ⟨429, body⟩) = .ret none (some rateLimitedMsg) false :=
  ⟨rfl, rfl, rfl, rfl, rfl, rfl, rfl, rfl, rfl, rfl, rfl, rfl⟩

/-- C5: the claim says the response body is consumed and released on
every exit path.  In the source the `defer res.Body.Close()` is placed
AFTER the `ReadAll` error return (line 60 after lines 56–59), and the
404 return (lines 52–54) and the `callService` error returns (lines
176–183) happen before the body is touched at all, so on those exit
paths the body is never closed (`bodyClosed = false`); only the two
paths that reach past `ReadAll` — decode failure and success — close
it, as the last two conjuncts show. -/
theorem body_not_closed_on_early_exits :
    BreachedAccount "key" "a" "" true false (fun _ => .ok ⟨404, .raw (some (.arr []))⟩)
      = .ret none none false ∧
    BreachedAccount "key" "a" "" true false (fun _ => .ok ⟨400, .raw (some (.arr []))⟩)
      = .ret none (some invalidFormatMsg) false ∧
    BreachedAccount "key" "a" "" true false (fun _ => .ok ⟨200, .readFail "unexpected EOF"⟩)
      = .ret none (some "unexpected EOF") false ∧
    BreachedAccount "key" "a" "" true false (fun _ => .ok ⟨200, .raw none⟩)
      = .ret none (some syntaxErrMsg) true ∧
    BreachedAccount "key" "a" "" true false (fun _ => .ok ⟨200, .raw (some (.arr []))⟩)
      = .ret (some []) none true :=
  ⟨rfl, rfl, rfl, rfl, rfl⟩

/-- C6: for every `BreachedAccount` call, `truncate = false` puts
`truncateResponse=false` into the outgoing query (membership of the
pair in the `url.Values`), `truncate = true` leaves the key absent;
`includeUnverified = true` puts `includeUnverified=true` in, `false`
leaves the key absent. -/
theorem breachedAccount_query_param_flags (env a f : String) (t u : Bool) :
    ((breachedAccountRequest env a f false u).params.lookup "truncateResponse" = some "false") ∧
    ((breachedAccountRequest env a f true u).params.lookup "truncateResponse" = none) ∧
    ((breachedAccountRequest env a f t true).params.lookup "includeUnverified" = some "true") ∧
    ((breachedAccountRequest env a f t false).params.lookup "includeUnverified" = none) := by
  refine ⟨?_, ?_, ?_, ?_⟩ <;>
  · by_cases hf : f = "" <;> cases t <;> cases u <;>
      simp [breachedAccountRequest, callServiceRequest, callServiceParams, List.lookup, hf]

/-- C7: a 200 response whose body is a well-formed JSON array of two
breach objects (the wire encodings of any two `BreachModel` values,
per the struct tags) decodes, in both list-returning breach
operations, to exactly those two records, field for field, with no
error. -/
theorem breach_list_decode_roundtrip (env a f : String) (t u : Bool) (b1 b2 : BreachModel) :
    BreachedAccount env a f t u
        (fun _ => .ok ⟨200, .raw (some (.arr [encodeBreach b1, encodeBreach b2]))⟩)
      = .ret (some [b1, b2]) none true ∧
    Breaches env f
        (fun _ => .ok ⟨200, .raw (some (.arr [encodeBreach b1, encodeBreach b2]))⟩)
      = .ret (some [b1, b2]) none true := by
  constructor
  · simp [BreachedAccount, callServiceClassify, decodeBreaches_encode_pair]
  · simp [Breaches, callServiceClassify, decodeBreaches_encode_pair]

/-- C8: a 200 response whose body is not well-formed JSON yields the
`json.Unmarshal` syntax error and no partial result data (nil slice /
zero record) in all four operations — syntax is validated before
anything is decoded. -/
theorem malformed_json_yields_decode_error (env a f n e : String) (t u : Bool) :
    BreachedAccount env a f t u (fun _ => .ok ⟨200, .raw none⟩)
      = .ret none (some syntaxErrMsg) true ∧
    Breaches env f (fun _ => .ok ⟨200, .raw none⟩)
      = .ret none (some syntaxErrMsg) true ∧
    Breach env n (fun _ => .ok ⟨200, .raw none⟩)
      = .ret {} (some syntaxErrMsg) true ∧
    PasteAccount env e (fun _ => .ok ⟨200, .raw none⟩)
      = .ret none (some syntaxErrMsg) true :=
  ⟨rfl, rfl, rfl, rfl⟩

/-- C9: for every status outside {400, 401, 404, 429} — e.g. 500 or 503 —
`callService` returns the response with no error, and the caller decodes
the body as on success: with a well-formed JSON body the operation
returns the decoded result and a nil error. -/
theorem unlisted_status_passes_through (env a f : String) (t u : Bool)
    (res : HttpResponse) (j : Json) (bs : List BreachModel)
    (h400 : res.statusCode ≠ 400) (h401 : res.statusCode ≠ 401)
    (h404 : res.statusCode ≠ 404) (h429 : res.statusCode ≠ 429)
    (hbody : res.body = .raw (some j)) (hdec : decodeBreaches j = (bs, none)) :
    callServiceClassify (.ok res) = .ok res ∧
    BreachedAccount env a f t u (fun _ => .ok res) = .ret (some bs) none true := by
  constructor
  · simp [callServiceClassify, h400, h401, h429]
  · simp [BreachedAccount, callServiceClassify, h400, h401, h404, h429, hbody, hdec]

/-- C9 witness: the theorem applied at a concrete HTTP 500 response with
body `[]`. -/
theorem unlisted_status_passes_through_witness :
    callServiceClassify (.ok ⟨500, .raw (some (.arr []))⟩) = .ok ⟨500, .raw (some (.arr []))⟩ ∧
    BreachedAccount "key" "a" "" true false (fun _ => .ok ⟨500, .raw (some (.arr []))⟩)
      = .ret (some []) none true :=
  unlisted_status_passes_through "key" "a" "" true false ⟨500, .raw (some (.arr []))⟩
    (.arr []) [] (by decide) (by decide) (by decide) (by decide) rfl rfl

/-- C10: a 200 response whose body is the empty JSON array decodes, in
each of the three list operations, to the empty non-nil slice
(`some []`) with a nil error, while the 404 path of the same
operations returns the nil slice (`none`) — the two are distinct
values of the result type. -/
theorem empty_json_array_yields_empty_slice (env a f e : String) (t u : Bool) :
    BreachedAccount env a f t u (fun _ => .ok ⟨200, .raw (some (.arr []))⟩)
      = .ret (some []) none true ∧
    Breaches env f (fun _ => .ok ⟨200, .raw (some (.arr []))⟩)
      = .ret (some []) none true ∧
    PasteAccount env e (fun _ => .ok ⟨200, .raw (some (.arr []))⟩)
      = .ret (some []) none true ∧
    BreachedAccount env a f t u (fun _ => .ok ⟨404, .raw (some (.arr []))⟩)
      = .ret none none false ∧
    (some ([] : List BreachModel) : Option (List BreachModel)) ≠ none :=
  ⟨rfl, rfl, rfl, rfl, by simp⟩
